import Mathlib

/-!
Shallow embedding of the conversation session engine in
`src/src/pages/ChatSupport.tsx` (Guardian-Bot).

Modelling choices:
* React state hooks (`messages`, `input`, `isTyping`, `location`,
  `isRecording`, `recognition`) become fields of `ChatState`; the persistence
  store (`storage.getChatMessages` / `storage.saveChatMessage`) is the
  `store` field, an append-only list.
* Observable side effects are recorded in the state: `toasts` (react-hot-toast
  calls), `spoken` (speech-synthesis utterances), `apiCalls` (requests handed
  to `sendChatMessage`).
* Asynchronous calls are embedded by passing their outcome as an explicit
  argument: the dialogue backend outcome is `Except Unit String` (failure, or
  the reply string, where the empty string models a falsy reply), geolocation
  is `GeoOutcome`.
* Timestamps (`new Date().toISOString()`) are modelled as `Nat` arguments;
  geographic coordinates are modelled by their decimal string renderings,
  since the code only ever interpolates them into message text.
* Platform capability checks (`webkitSpeechRecognition in window`,
  `speechSynthesis in window`) are the fields of `Env`.
-/

/-- Message role, the `role` field of a chat message. -/
inductive Role where
  | system
  | user
  | assistant
  deriving DecidableEq, Repr

/-- A chat message as stored in React state and in the persistence store:
`{ role, content, created_at }`. -/
structure Message where
  role : Role
  content : String
  created_at : Nat
  deriving DecidableEq, Repr

/-- A message of the outbound backend request: role and content only,
timestamps stripped (`{ role: msg.role, content: msg.content }`). -/
structure ApiMessage where
  role : Role
  content : String
  deriving DecidableEq, Repr

/-- A user-visible notification (`toast.success` / `toast.error`). -/
inductive Toast where
  | success (msg : String)
  | error (msg : String)
  deriving DecidableEq, Repr

/-- Platform capabilities, fixed for a run of the page. -/
structure Env where
  speechRec : Bool
  speechSynth : Bool
  deriving DecidableEq, Repr

/-- The state of the `ChatSupport` component together with its observable
effect logs. -/
structure ChatState where
  messages : List Message
  input : String
  isTyping : Bool
  location : Option (String × String)
  isRecording : Bool
  recognition : Bool
  store : List Message
  toasts : List Toast
  spoken : List String
  apiCalls : List (List ApiMessage)
  deriving DecidableEq, Repr

/-- Initial component state: every `useState` initializer, plus an empty
persistence store and empty effect logs. -/
def initialState : ChatState :=
  { messages := []
    input := ""
    isTyping := false
    location := none
    isRecording := false
    recognition := false
    store := []
    toasts := []
    spoken := []
    apiCalls := [] }

/-- The `SYSTEM_PROMPT` constant of `ChatSupport.tsx`. -/
def SYSTEM_PROMPT : String :=
  "You are GuardianBot, an AI emergency response assistant. Your role is to:\n1. Help people report emergencies and incidents\n2. Provide immediate safety guidance\n3. Collect relevant information (location, situation details)\n4. Offer emotional support\n5. Guide users through the emergency response process\n\nAlways maintain a calm, professional tone. For serious emergencies, emphasize the importance of contacting emergency services first."

/-- JavaScript `String.prototype.trim`: removes leading and trailing
whitespace.  Stated over the character list so that it evaluates by kernel
reduction (the library `String.trim` uses well-founded recursion). -/
def jsTrim (s : String) : String :=
  ⟨((s.data.dropWhile Char.isWhitespace).reverse.dropWhile Char.isWhitespace).reverse⟩

/-- The initialize `useEffect` (lines 35-73): sets up speech recognition when
the platform supports it, then loads persisted messages; if the store is
empty it seeds one assistant greeting (localized text `t(chat.initialMessage)`
passed here as `greeting`) and persists it, otherwise it adopts the stored
sequence verbatim. -/
def initializeChat (env : Env) (s : ChatState) (greeting : String) (now : Nat) : ChatState :=
  let s0 : ChatState := { s with recognition := env.speechRec }
  let savedMessages := s0.store
  if savedMessages.length = 0 then
    let initialMessage : Message :=
      { role := Role.assistant, content := greeting, created_at := now }
    { s0 with
      store := s0.store ++ [initialMessage]
      messages := [initialMessage] }
  else
    { s0 with messages := savedMessages }

/-- The user message built by `handleSubmit` from the current input buffer. -/
def userMessageOf (input : String) (now : Nat) : Message :=
  { role := Role.user, content := input, created_at := now }

/-- The `apiMessages` array of `handleSubmit` (lines 120-124): the system
prompt, the prior history reduced to role/content, then the new user turn. -/
def buildApiMessages (history : List Message) (input : String) : List ApiMessage :=
  ({ role := Role.system, content := SYSTEM_PROMPT } : ApiMessage) ::
    ((history.map fun msg => ({ role := msg.role, content := msg.content } : ApiMessage)) ++
      [({ role := Role.user, content := input } : ApiMessage)])

/-- `handleSubmit` (lines 105-145).  Guard: `if (!input.trim()) return`.
Otherwise it appends and persists the user message, clears the input buffer,
sets `isTyping`, dispatches the request, and then applies the backend
`outcome`: a truthy reply appends + persists an assistant message and speaks
it (when speech synthesis exists); a falsy reply does nothing further; a
thrown error raises an error toast.  `finally` clears `isTyping`. -/
def handleSubmit (env : Env) (s : ChatState) (outcome : Except Unit String)
    (now now2 : Nat) : ChatState :=
  if jsTrim s.input = "" then s
  else
    let userMessage := userMessageOf s.input now
    let apiMessages := buildApiMessages s.messages s.input
    let s1 : ChatState :=
      { s with
        messages := s.messages ++ [userMessage]
        store := s.store ++ [userMessage]
        input := ""
        isTyping := true
        apiCalls := s.apiCalls ++ [apiMessages] }
    match outcome with
    | Except.ok response =>
      if response = "" then { s1 with isTyping := false }
      else
        let botResponse : Message :=
          { role := Role.assistant, content := response, created_at := now2 }
        { s1 with
          messages := s1.messages ++ [botResponse]
          store := s1.store ++ [botResponse]
          spoken := if env.speechSynth then s1.spoken ++ [response] else s1.spoken
          isTyping := false }
    | Except.error _ =>
      { s1 with
        toasts := s1.toasts ++ [Toast.error "Failed to get response. Please try again."]
        isTyping := false }

/-- The `disabled` attribute of the submit button (line 296):
`disabled={!input.trim() || isTyping}`. -/
def submitButtonDisabled (input : String) (isTyping : Bool) : Bool :=
  (jsTrim input = "") || isTyping

/-- The outcome of `navigator.geolocation`: the capability may be absent
(`navigator.geolocation` falsy), or `getCurrentPosition` succeeds with
coordinates or fails. -/
inductive GeoOutcome where
  | absent
  | success (lat lng : String)
  | failure
  deriving DecidableEq, Repr

/-- `shareLocation` (lines 147-170).  With no geolocation capability the
body is skipped entirely; on success it records the location, appends and
persists one user message embedding both coordinates, and raises a success
toast; on failure it raises an error toast. -/
def shareLocation (s : ChatState) (geo : GeoOutcome) (now : Nat) : ChatState :=
  match geo with
  | GeoOutcome.absent => s
  | GeoOutcome.success lat lng =>
    let locationMessage : Message :=
      { role := Role.user
        content := "📍 Location shared: " ++ lat ++ ", " ++ lng
        created_at := now }
    { s with
      location := some (lat, lng)
      messages := s.messages ++ [locationMessage]
      store := s.store ++ [locationMessage]
      toasts := s.toasts ++ [Toast.success "Location shared successfully"] }
  | GeoOutcome.failure =>
    { s with toasts := s.toasts ++ [Toast.error "Could not get your location"] }

/-- `toggleVoiceInput` (lines 83-95).  Without a recognition object it only
raises an error toast.  When recording, it calls `recognition.stop()` — which
changes no component state by itself; `isRecording` is only reset by the
`onend`/`onerror` events.  Otherwise it starts recognition and sets
`isRecording`. -/
def toggleVoiceInput (s : ChatState) : ChatState :=
  if s.recognition = false then
    { s with
      toasts := s.toasts ++ [Toast.error "Speech recognition is not supported in your browser"] }
  else if s.isRecording then
    s
  else
    { s with isRecording := true }

/-- `recognition.onresult` (lines 43-46): the transcript replaces the input
buffer. -/
def recognitionOnResult (s : ChatState) (transcript : String) : ChatState :=
  { s with input := transcript }

/-- `recognition.onerror` (lines 48-51): recording resets to false. -/
def recognitionOnError (s : ChatState) : ChatState :=
  { s with isRecording := false }

/-- `recognition.onend` (lines 53-55): recording resets to false.  The Web
Speech API fires this after `recognition.stop()` and at natural end of
recognition. -/
def recognitionOnEnd (s : ChatState) : ChatState :=
  { s with isRecording := false }

/-- Typing into the text input (line 289): `onChange` replaces the input
buffer. -/
def setInputField (s : ChatState) (text : String) : ChatState :=
  { s with input := text }

/-- One discrete event the component reacts to. -/
inductive Event where
  | evInit (greeting : String) (now : Nat)
  | evSetInput (text : String)
  | evSubmit (outcome : Except Unit String) (now now2 : Nat)
  | evShare (geo : GeoOutcome) (now : Nat)
  | evToggleVoice
  | evRecogResult (transcript : String)
  | evRecogError
  | evRecogEnd
  deriving Repr

/-- The reaction of the component to one event. -/
def stepChat (env : Env) (s : ChatState) (e : Event) : ChatState :=
  match e with
  | Event.evInit greeting now => initializeChat env s greeting now
  | Event.evSetInput text => setInputField s text
  | Event.evSubmit outcome now now2 => handleSubmit env s outcome now now2
  | Event.evShare geo now => shareLocation s geo now
  | Event.evToggleVoice => toggleVoiceInput s
  | Event.evRecogResult transcript => recognitionOnResult s transcript
  | Event.evRecogError => recognitionOnError s
  | Event.evRecogEnd => recognitionOnEnd s

/-- States reachable from the initial state by any sequence of events. -/
inductive Reachable (env : Env) : ChatState → Prop where
  | base : Reachable env initialState
  | next (s : ChatState) (e : Event) : Reachable env s → Reachable env (stepChat env s e)

/-- A sample greeting message used by concrete witnesses. -/
def greetMsg : Message :=
  { role := Role.assistant, content := "Hello! How can I help you?", created_at := 0 }

/-- A sample state used by concrete witnesses: one greeting in the session and
the store, and text typed in the input buffer. -/
def sampleState : ChatState :=
  { initialState with
    messages := [greetMsg]
    store := [greetMsg]
    input := "help, fire nearby" }

/-- `sampleState` with a request already pending. -/
def pendingState : ChatState :=
  { sampleState with isTyping := true }

/-- `sampleState` with whitespace-only input. -/
def blankState : ChatState :=
  { sampleState with input := "   " }

/-- `sampleState` with speech recognition available and not recording. -/
def voiceState : ChatState :=
  { sampleState with recognition := true }

/-- Claim C1: for every `submitText` call accepted with input whose trim is
non-empty, the outbound backend request is exactly one system-role message
with the fixed instruction text, followed by every message of the
pre-submission session history reduced to role and content in stored order,
followed by one user-role message whose content is the submitted text. -/
theorem submit_request_shape (env : Env) (s : ChatState)
    (outcome : Except Unit String) (now now2 : Nat)
    (h : jsTrim s.input ≠ "") :
    (handleSubmit env s outcome now now2).apiCalls =
      s.apiCalls ++
        [({ role := Role.system, content := SYSTEM_PROMPT } : ApiMessage) ::
          ((s.messages.map fun msg =>
              ({ role := msg.role, content := msg.content } : ApiMessage)) ++
            [({ role := Role.user, content := s.input } : ApiMessage)])] := by
  unfold handleSubmit
  rw [if_neg h]
  cases outcome with
  | ok response =>
    by_cases hr : response = "" <;> simp [hr, buildApiMessages]
  | error e => simp [buildApiMessages]

/-- Witness for C1 at a concrete state. -/
theorem submit_request_shape_witness :
    jsTrim sampleState.input ≠ "" ∧
    (handleSubmit ⟨true, true⟩ sampleState (Except.ok "Stay calm.") 1 2).apiCalls =
      sampleState.apiCalls ++
        [({ role := Role.system, content := SYSTEM_PROMPT } : ApiMessage) ::
          ((sampleState.messages.map fun msg =>
              ({ role := msg.role, content := msg.content } : ApiMessage)) ++
            [({ role := Role.user, content := sampleState.input } : ApiMessage)])] :=
  ⟨by decide, submit_request_shape ⟨true, true⟩ sampleState (Except.ok "Stay calm.") 1 2 (by decide)⟩

/-- Claim C7: a `submitText` call whose input is empty or whitespace-only
after trimming is a complete no-op: the state, including the message list,
the store, the pending flag and the dispatched-request log, is unchanged. -/
theorem submit_blank_is_noop (env : Env) (s : ChatState)
    (outcome : Except Unit String) (now now2 : Nat)
    (h : jsTrim s.input = "") :
    handleSubmit env s outcome now now2 = s := by
  unfold handleSubmit
  rw [if_pos h]

/-- Witness for C7 at a concrete whitespace-only input. -/
theorem submit_blank_is_noop_witness :
    jsTrim blankState.input = "" ∧
    handleSubmit ⟨true, true⟩ blankState (Except.ok "reply") 1 2 = blankState :=
  ⟨by decide, submit_blank_is_noop ⟨true, true⟩ blankState (Except.ok "reply") 1 2 (by decide)⟩

/-- Claim C9: when the geolocation capability is absent entirely,
`shareLocation` is a complete silent no-op: no message, no location update,
no notification of any kind. -/
theorem shareLocation_absent_noop (s : ChatState) (now : Nat) :
    shareLocation s GeoOutcome.absent now = s := rfl

/-- Claim C2: when the backend fails, the message list after the call settles
is the pre-submission list plus exactly the already-appended user message, an
error toast is raised, and `isTyping` is false after the call settles for
every outcome, failure and success alike. -/
theorem submit_failure_and_pending_settles (env : Env) (s : ChatState)
    (outcome : Except Unit String) (now now2 : Nat)
    (h : jsTrim s.input ≠ "") :
    ((handleSubmit env s (Except.error ()) now now2).messages =
        s.messages ++ [userMessageOf s.input now] ∧
      (handleSubmit env s (Except.error ()) now now2).toasts =
        s.toasts ++ [Toast.error "Failed to get response. Please try again."]) ∧
    (handleSubmit env s outcome now now2).isTyping = false := by
  refine ⟨⟨?_, ?_⟩, ?_⟩
  · unfold handleSubmit; rw [if_neg h]
  · unfold handleSubmit; rw [if_neg h]
  · unfold handleSubmit
    rw [if_neg h]
    cases outcome with
    | ok response => by_cases hr : response = "" <;> simp [hr]
    | error e => exact rfl

/-- Witness for C2 at a concrete state and failing backend. -/
theorem submit_failure_and_pending_settles_witness :
    jsTrim sampleState.input ≠ "" ∧
    (((handleSubmit ⟨true, true⟩ sampleState (Except.error ()) 1 2).messages =
        sampleState.messages ++ [userMessageOf sampleState.input 1] ∧
      (handleSubmit ⟨true, true⟩ sampleState (Except.error ()) 1 2).toasts =
        sampleState.toasts ++ [Toast.error "Failed to get response. Please try again."]) ∧
    (handleSubmit ⟨true, true⟩ sampleState (Except.error ()) 1 2).isTyping = false) :=
  ⟨by decide,
    submit_failure_and_pending_settles ⟨true, true⟩ sampleState (Except.error ()) 1 2 (by decide)⟩

/-- Claim C10: a successful backend call returning an empty (falsy) reply
appends no assistant message, persists nothing further, speaks nothing and
raises no toast; the only effects are the already-appended user message, the
dispatched request, the cleared input buffer and `isTyping = false`. -/
theorem submit_empty_reply_effects (env : Env) (s : ChatState) (now now2 : Nat)
    (h : jsTrim s.input ≠ "") :
    handleSubmit env s (Except.ok "") now now2 =
      { s with
        messages := s.messages ++ [userMessageOf s.input now]
        store := s.store ++ [userMessageOf s.input now]
        input := ""
        isTyping := false
        apiCalls := s.apiCalls ++ [buildApiMessages s.messages s.input] } := by
  unfold handleSubmit
  rw [if_neg h]
  exact rfl

/-- Witness for C10 at a concrete state. -/
theorem submit_empty_reply_effects_witness :
    jsTrim sampleState.input ≠ "" ∧
    handleSubmit ⟨true, true⟩ sampleState (Except.ok "") 1 2 =
      { sampleState with
        messages := sampleState.messages ++ [userMessageOf sampleState.input 1]
        store := sampleState.store ++ [userMessageOf sampleState.input 1]
        input := ""
        isTyping := false
        apiCalls := sampleState.apiCalls ++
          [buildApiMessages sampleState.messages sampleState.input] } :=
  ⟨by decide, submit_empty_reply_effects ⟨true, true⟩ sampleState 1 2 (by decide)⟩

/-- Claim C3: initialization on an empty store seeds and persists exactly one
assistant greeting; on a non-empty store it adopts the stored sequence
verbatim with zero appends; and re-invoking it (locale change) after a first
initialization appends nothing to the store and does not re-seed the
greeting. -/
theorem initializeChat_seeding (env env2 : Env) (s : ChatState) (g g2 : String)
    (now now2 : Nat) :
    (s.store = [] →
      (initializeChat env s g now).messages =
          [{ role := Role.assistant, content := g, created_at := now }] ∧
        (initializeChat env s g now).store =
          s.store ++ [{ role := Role.assistant, content := g, created_at := now }]) ∧
    (s.store ≠ [] →
      (initializeChat env s g now).messages = s.store ∧
        (initializeChat env s g now).store = s.store) ∧
    ((initializeChat env2 (initializeChat env s g now) g2 now2).store =
        (initializeChat env s g now).store ∧
      (initializeChat env2 (initializeChat env s g now) g2 now2).messages =
        (initializeChat env s g now).messages) := by
  by_cases hs : s.store = [] <;>
    simp [initializeChat, hs, List.length_eq_zero]

/-- Witness for C3: seeding on a concrete empty store. -/
theorem initializeChat_seeding_witness :
    (initializeChat ⟨true, true⟩ initialState "Hello" 0).messages =
      [{ role := Role.assistant, content := "Hello", created_at := 0 }] :=
  ((initializeChat_seeding ⟨true, true⟩ ⟨true, true⟩ initialState "Hello" "Bonjour" 0 1).1 rfl).1

/-- Claim C4: `shareLocation` on success appends and persists exactly one
user message whose content contains both coordinates verbatim and raises a
success toast; on failure it appends nothing and raises an error toast; and
no outcome dispatches a backend request. -/
theorem shareLocation_effects (s : ChatState) (lat lng : String) (now : Nat) :
    ((shareLocation s (GeoOutcome.success lat lng) now).messages =
        s.messages ++
          [{ role := Role.user
             content := "📍 Location shared: " ++ lat ++ ", " ++ lng
             created_at := now }] ∧
      (shareLocation s (GeoOutcome.success lat lng) now).store =
        s.store ++
          [{ role := Role.user
             content := "📍 Location shared: " ++ lat ++ ", " ++ lng
             created_at := now }] ∧
      (∃ pre mid post,
        "📍 Location shared: " ++ lat ++ ", " ++ lng =
          pre ++ lat ++ mid ++ lng ++ post) ∧
      (shareLocation s (GeoOutcome.success lat lng) now).toasts =
        s.toasts ++ [Toast.success "Location shared successfully"]) ∧
    ((shareLocation s GeoOutcome.failure now).messages = s.messages ∧
      (shareLocation s GeoOutcome.failure now).store = s.store ∧
      (shareLocation s GeoOutcome.failure now).toasts =
        s.toasts ++ [Toast.error "Could not get your location"]) ∧
    (∀ geo : GeoOutcome, (shareLocation s geo now).apiCalls = s.apiCalls) := by
  refine ⟨⟨rfl, rfl, ⟨"📍 Location shared: ", ", ", "", ?_⟩, rfl⟩, ⟨rfl, rfl, rfl⟩, ?_⟩
  · simp
  · intro geo; cases geo <;> rfl

/-- Helper for C8: no message of the list carries the system role. -/
def noSystemIn (l : List Message) : Prop :=
  ∀ m ∈ l, m.role ≠ Role.system

lemma noSystemIn_append {l1 l2 : List Message}
    (h1 : noSystemIn l1) (h2 : noSystemIn l2) : noSystemIn (l1 ++ l2) := by
  intro m hm
  rcases List.mem_append.mp hm with h | h
  · exact h1 m h
  · exact h2 m h

lemma noSystemIn_single {m : Message} (h : m.role ≠ Role.system) :
    noSystemIn [m] := by
  intro x hx
  rw [List.mem_singleton.mp hx]
  exact h

lemma handleSubmit_error_eq (env : Env) (s : ChatState) (e : Unit) (now now2 : Nat)
    (h : jsTrim s.input ≠ "") :
    handleSubmit env s (Except.error e) now now2 =
      { s with
        messages := s.messages ++ [userMessageOf s.input now]
        store := s.store ++ [userMessageOf s.input now]
        input := ""
        isTyping := false
        toasts := s.toasts ++ [Toast.error "Failed to get response. Please try again."]
        apiCalls := s.apiCalls ++ [buildApiMessages s.messages s.input] } := by
  unfold handleSubmit
  rw [if_neg h]

lemma handleSubmit_ok_empty_eq (env : Env) (s : ChatState) (now now2 : Nat)
    (h : jsTrim s.input ≠ "") :
    handleSubmit env s (Except.ok "") now now2 =
      { s with
        messages := s.messages ++ [userMessageOf s.input now]
        store := s.store ++ [userMessageOf s.input now]
        input := ""
        isTyping := false
        apiCalls := s.apiCalls ++ [buildApiMessages s.messages s.input] } := by
  unfold handleSubmit
  rw [if_neg h]
  exact rfl

lemma handleSubmit_ok_nonempty_eq (env : Env) (s : ChatState) (response : String)
    (now now2 : Nat) (h : jsTrim s.input ≠ "") (hr : response ≠ "") :
    handleSubmit env s (Except.ok response) now now2 =
      { s with
        messages := s.messages ++ [userMessageOf s.input now] ++
          [{ role := Role.assistant, content := response, created_at := now2 }]
        store := s.store ++ [userMessageOf s.input now] ++
          [{ role := Role.assistant, content := response, created_at := now2 }]
        input := ""
        isTyping := false
        spoken := if env.speechSynth then s.spoken ++ [response] else s.spoken
        apiCalls := s.apiCalls ++ [buildApiMessages s.messages s.input] } := by
  unfold handleSubmit
  rw [if_neg h]
  show (if response = "" then _ else _) = _
  rw [if_neg hr]

lemma handleSubmit_noSystem (env : Env) (s : ChatState)
    (outcome : Except Unit String) (now now2 : Nat)
    (hm : noSystemIn s.messages) (hs : noSystemIn s.store) :
    noSystemIn (handleSubmit env s outcome now now2).messages ∧
      noSystemIn (handleSubmit env s outcome now now2).store := by
  have huser : noSystemIn [userMessageOf s.input now] :=
    noSystemIn_single (by simp [userMessageOf])
  by_cases h : jsTrim s.input = ""
  · have heq : handleSubmit env s outcome now now2 = s := by
      unfold handleSubmit; rw [if_pos h]
    rw [heq]; exact ⟨hm, hs⟩
  · cases outcome with
    | ok response =>
      by_cases hr : response = ""
      · subst hr
        rw [handleSubmit_ok_empty_eq env s now now2 h]
        exact ⟨noSystemIn_append hm huser, noSystemIn_append hs huser⟩
      · rw [handleSubmit_ok_nonempty_eq env s response now now2 h hr]
        have hbot : noSystemIn
            [{ role := Role.assistant, content := response, created_at := now2 }] :=
          noSystemIn_single (by simp)
        exact ⟨noSystemIn_append (noSystemIn_append hm huser) hbot,
          noSystemIn_append (noSystemIn_append hs huser) hbot⟩
    | error e =>
      rw [handleSubmit_error_eq env s e now now2 h]
      exact ⟨noSystemIn_append hm huser, noSystemIn_append hs huser⟩

lemma initializeChat_noSystem (env : Env) (s : ChatState) (g : String) (now : Nat)
    (hs : noSystemIn s.store) :
    noSystemIn (initializeChat env s g now).messages ∧
      noSystemIn (initializeChat env s g now).store := by
  have hg : noSystemIn [{ role := Role.assistant, content := g, created_at := now }] :=
    noSystemIn_single (by simp)
  unfold initializeChat
  by_cases h : s.store.length = 0
  · rw [if_pos h]
    exact ⟨hg, noSystemIn_append hs hg⟩
  · rw [if_neg h]
    exact ⟨hs, hs⟩

lemma shareLocation_noSystem (s : ChatState) (geo : GeoOutcome) (now : Nat)
    (hm : noSystemIn s.messages) (hs : noSystemIn s.store) :
    noSystemIn (shareLocation s geo now).messages ∧
      noSystemIn (shareLocation s geo now).store := by
  cases geo with
  | absent => exact ⟨hm, hs⟩
  | success lat lng =>
    have hl : noSystemIn
        [{ role := Role.user
           content := "📍 Location shared: " ++ lat ++ ", " ++ lng
           created_at := now }] :=
      noSystemIn_single (by simp)
    exact ⟨noSystemIn_append hm hl, noSystemIn_append hs hl⟩
  | failure => exact ⟨hm, hs⟩

lemma stepChat_noSystem (env : Env) (s : ChatState) (e : Event)
    (hm : noSystemIn s.messages) (hs : noSystemIn s.store) :
    noSystemIn (stepChat env s e).messages ∧
      noSystemIn (stepChat env s e).store := by
  cases e with
  | evInit g now => exact initializeChat_noSystem env s g now hs
  | evSetInput t => exact ⟨hm, hs⟩
  | evSubmit outcome now now2 => exact handleSubmit_noSystem env s outcome now now2 hm hs
  | evShare geo now => exact shareLocation_noSystem s geo now hm hs
  | evToggleVoice =>
    unfold stepChat toggleVoiceInput
    by_cases h1 : s.recognition = false
    · rw [if_pos h1]; exact ⟨hm, hs⟩
    · rw [if_neg h1]
      by_cases h2 : s.isRecording <;> simp [h2] <;> exact ⟨hm, hs⟩
  | evRecogResult t => exact ⟨hm, hs⟩
  | evRecogError => exact ⟨hm, hs⟩
  | evRecogEnd => exact ⟨hm, hs⟩

/-- Claim C8: in every reachable state, no system-role message is in the
session message list or the persistence store; system-role text exists only
inside the outbound backend requests. -/
theorem no_system_role_persisted (env : Env) (s : ChatState) (h : Reachable env s) :
    (∀ m ∈ s.messages, m.role ≠ Role.system) ∧
      (∀ m ∈ s.store, m.role ≠ Role.system) := by
  induction h with
  | base =>
    constructor <;> intro m hm <;> simp [initialState] at hm
  | next s e hr ih => exact stepChat_noSystem env s e ih.1 ih.2

/-- Witness for C8: a concrete reachable state after initialization and one
submission. -/
theorem no_system_role_persisted_witness :
    (∀ m ∈ (stepChat ⟨true, true⟩ initialState (Event.evInit "Hello" 0)).messages,
        m.role ≠ Role.system) ∧
      (∀ m ∈ (stepChat ⟨true, true⟩ initialState (Event.evInit "Hello" 0)).store,
        m.role ≠ Role.system) :=
  no_system_role_persisted ⟨true, true⟩ _
    (Reachable.next initialState (Event.evInit "Hello" 0) Reachable.base)

/-- Claim C5 counterexample: with non-empty input while a request is pending
the submit button is disabled (`disabled = !input.trim() || isTyping`), so
the claim that submission is not disabled while a request is pending is
false. -/
theorem submit_button_disabled_while_pending :
    submitButtonDisabled "help" true = true := by decide

/-- Claim C5 (amended): the `handleSubmit` handler itself has no pending-flag
precondition — invoked with non-empty trimmed input while `isTyping` is true
it still appends the user message and dispatches a new backend request — but
the submit button is rendered disabled while a request is pending. -/
theorem handleSubmit_has_no_pending_guard (env : Env) (s : ChatState)
    (outcome : Except Unit String) (now now2 : Nat)
    (h : jsTrim s.input ≠ "") (hp : s.isTyping = true) :
    (∃ rest, (handleSubmit env s outcome now now2).messages =
        s.messages ++ [userMessageOf s.input now] ++ rest) ∧
    (handleSubmit env s outcome now now2).apiCalls =
      s.apiCalls ++ [buildApiMessages s.messages s.input] ∧
    submitButtonDisabled s.input s.isTyping = true := by
  refine ⟨?_, ?_, ?_⟩
  · unfold handleSubmit
    rw [if_neg h]
    cases outcome with
    | ok response =>
      by_cases hr : response = ""
      · exact ⟨[], by simp [hr]⟩
      · exact ⟨[{ role := Role.assistant, content := response, created_at := now2 }],
          by simp [hr]⟩
    | error e => exact ⟨[], by simp⟩
  · unfold handleSubmit
    rw [if_neg h]
    cases outcome with
    | ok response => by_cases hr : response = "" <;> simp [hr]
    | error e => exact rfl
  · simp [submitButtonDisabled, hp]

/-- Witness for the amended C5 at a concrete pending state. -/
theorem handleSubmit_has_no_pending_guard_witness :
    jsTrim pendingState.input ≠ "" ∧ pendingState.isTyping = true ∧
    ((∃ rest, (handleSubmit ⟨true, true⟩ pendingState (Except.error ()) 1 2).messages =
        pendingState.messages ++ [userMessageOf pendingState.input 1] ++ rest) ∧
      (handleSubmit ⟨true, true⟩ pendingState (Except.error ()) 1 2).apiCalls =
        pendingState.apiCalls ++
          [buildApiMessages pendingState.messages pendingState.input] ∧
      submitButtonDisabled pendingState.input pendingState.isTyping = true) :=
  ⟨by decide, rfl,
    handleSubmit_has_no_pending_guard ⟨true, true⟩ pendingState (Except.error ()) 1 2
      (by decide) rfl⟩

/-- Claim C6: starting voice input and toggling again to stop it, with the
end event the stop provokes and no result event in between, leaves recording
false and the input buffer unchanged. -/
theorem voice_toggle_twice (s : ChatState)
    (hrec : s.recognition = true) (hnot : s.isRecording = false) :
    (recognitionOnEnd (toggleVoiceInput (toggleVoiceInput s))).isRecording = false ∧
      (recognitionOnEnd (toggleVoiceInput (toggleVoiceInput s))).input = s.input := by
  simp [toggleVoiceInput, recognitionOnEnd, hrec, hnot]

/-- Witness for C6 at a concrete state with speech recognition available. -/
theorem voice_toggle_twice_witness :
    voiceState.recognition = true ∧ voiceState.isRecording = false ∧
    ((recognitionOnEnd (toggleVoiceInput (toggleVoiceInput voiceState))).isRecording = false ∧
      (recognitionOnEnd (toggleVoiceInput (toggleVoiceInput voiceState))).input =
        voiceState.input) :=
  ⟨rfl, rfl, voice_toggle_twice voiceState rfl rfl⟩
